import Mathlib

/-! Shallow embedding of the timeline clip drag/resize engine of
`VideoTrackView` (video-starter-kit, `video-track-row` component).
Pixel offsets and millisecond times are modelled as rationals; every DOM
read (`getBoundingClientRect`, `offsetLeft`, `offsetWidth`,
`previousElementSibling`, ...) is an explicit parameter, and every store
write (`db.keyFrames.update`) or cache invalidation
(`queryClient.invalidateQueries`) is an explicit `Effect` value. -/

/-- A DOM rectangle, reduced to the horizontal data the handlers read. -/
structure Rect where
  left : ℚ
  width : ℚ
  deriving Repr, DecidableEq

/-- The right edge of a rectangle, as `getBoundingClientRect().right`. -/
def Rect.right (r : Rect) : ℚ := r.left + r.width

/-- Everything `calculateBounds` and the handlers read from the DOM about the
clip's track element: the closest `.timeline-container` rect (`none` when the
container cannot be located), the timeline's `offsetWidth` (`parentWidth`),
the track element's own client rect and layout offsets, and the client rects
of the previous/next element siblings when present. -/
structure TrackGeometry where
  timeline : Option Rect
  parentWidth : ℚ
  trackRect : Rect
  offsetLeft : ℚ
  offsetWidth : ℚ
  prev : Option Rect
  next : Option Rect
  deriving Repr, DecidableEq

/-- The record returned by `calculateBounds`. -/
structure Bounds where
  parentWidth : ℚ
  timelineRect : Rect
  trackRect : Rect
  leftBoundPixels : ℚ
  rightBoundPixels : ℚ
  leftBoundPercent : ℚ
  rightBoundPercent : ℚ
  deriving Repr, DecidableEq

/-- Transcription of `calculateBounds` (part_001 lines 194-222): `null` when
the timeline container is missing; otherwise the previous sibling's right
edge (or 0) and the next sibling's left edge minus the clip's width (or the
timeline's width minus the clip's width), both relative to the timeline's
client left edge, plus the percentage forms over `parentWidth`. -/
def calculateBounds (g : TrackGeometry) : Option Bounds :=
  match g.timeline with
  | none => none
  | some timelineRect =>
      let leftBoundPixels : ℚ :=
        match g.prev with
        | some p => p.right - timelineRect.left
        | none => 0
      let rightBoundPixels : ℚ :=
        match g.next with
        | some n => n.left - timelineRect.left - g.trackRect.width
        | none => timelineRect.width - g.trackRect.width
      some {
        parentWidth := g.parentWidth
        timelineRect := timelineRect
        trackRect := g.trackRect
        leftBoundPixels := leftBoundPixels
        rightBoundPixels := rightBoundPixels
        leftBoundPercent := leftBoundPixels / g.parentWidth * 100
        rightBoundPercent := rightBoundPixels / g.parentWidth * 100 }

/-- The mutable fields of a `VideoKeyFrame` touched by the handlers. -/
structure Frame where
  timestamp : ℚ
  duration : ℚ
  deriving Repr, DecidableEq

/-- Observable side effects: a keyed store update (`db.keyFrames.update`)
carrying an optional timestamp and an optional duration field, and a project
preview cache invalidation. -/
inductive Effect where
  | update (timestamp : Option ℚ) (duration : Option ℚ)
  | invalidatePreview
  deriving Repr, DecidableEq

/-- Whether an effect is a store update. -/
def Effect.isUpdate : Effect → Bool
  | .update _ _ => true
  | _ => false

/-- Whether an effect is a preview-cache invalidation. -/
def Effect.isInvalidate : Effect → Bool
  | .invalidatePreview => true
  | _ => false

/-- Session state captured by `handleMouseDown` (drag entry). -/
structure DragState where
  bounds : Bounds
  startX : ℚ
  startLeft : ℚ
  deriving Repr, DecidableEq

/-- Transcription of the entry of `handleMouseDown` (lines 224-231): abort
(`none`) when the track element ref is empty or `calculateBounds` fails;
otherwise capture the bounds, the pointer x and the clip's `offsetLeft`. -/
def dragMouseDown (trackElem : Option TrackGeometry) (clientX : ℚ) :
    Option DragState :=
  match trackElem with
  | none => none
  | some g =>
      match calculateBounds g with
      | none => none
      | some bounds =>
          some { bounds := bounds, startX := clientX, startLeft := g.offsetLeft }

/-- Transcription of the drag `handleMouseMove` (lines 233-248): clamp the
proposed left offset between the session bounds, convert to a timestamp over
a 30-unit scale, floor at 0, mutate the frame and write the timestamp (and
only the timestamp) to the store. -/
def dragMouseMove (st : DragState) (moveClientX : ℚ) (f : Frame) :
    Frame × List Effect :=
  let deltaX := moveClientX - st.startX
  let proposedLeft := st.startLeft + deltaX
  let newLeft :=
    if proposedLeft < st.bounds.leftBoundPixels then st.bounds.leftBoundPixels
    else if proposedLeft > st.bounds.rightBoundPixels then st.bounds.rightBoundPixels
    else proposedLeft
  let newTimestamp := newLeft / st.bounds.parentWidth * 30
  let ts := (if newTimestamp < 0 then 0 else newTimestamp) * 1000
  ({ f with timestamp := ts }, [Effect.update (some ts) none])

/-- A whole drag session (lines 224-260): entry, a list of pointer-move x
positions, then pointer-up which only invalidates the preview cache. When
entry aborts, nothing happens at all. -/
def runDragSession (trackElem : Option TrackGeometry) (downX : ℚ)
    (moves : List ℚ) (f : Frame) : Frame × List Effect :=
  match dragMouseDown trackElem downX with
  | none => (f, [])
  | some st =>
      let r := moves.foldl
        (fun acc mx =>
          let s := dragMouseMove st mx acc.1
          (s.1, acc.2 ++ s.2))
        (f, ([] : List Effect))
      (r.1, r.2 ++ [Effect.invalidatePreview])

/-- The `direction` argument of `handleResize`. -/
inductive ResizeDirection where
  | left
  | right
  deriving Repr, DecidableEq

/-- Session state captured by `handleResize` (lines 273-276). -/
structure ResizeState where
  startX : ℚ
  startWidth : ℚ
  startLeft : ℚ
  startTimestamp : ℚ
  deriving Repr, DecidableEq

/-- Transcription of the entry of `handleResize` (lines 262-276): abort when
the track element ref is empty or `calculateBounds` fails; otherwise capture
pointer x, `offsetWidth`, `offsetLeft` and the frame's timestamp. -/
def resizeMouseDown (trackElem : Option TrackGeometry) (clientX : ℚ)
    (f : Frame) : Option ResizeState :=
  match trackElem with
  | none => none
  | some g =>
      match calculateBounds g with
      | none => none
      | some _ =>
          some { startX := clientX, startWidth := g.offsetWidth,
                 startLeft := g.offsetLeft, startTimestamp := f.timestamp }

/-- The constrained new left offset of the left-direction resize branch
(lines 290-314): the proposed left percent, floored at `leftBoundPercent`,
capped at the largest left keeping at least the minimum duration, converted
back to pixels. -/
def leftResizeNewLeft (st : ResizeState) (b : Bounds) (deltaX : ℚ) : ℚ :=
  let endPoint := st.startLeft + st.startWidth
  let proposedLeftPercent := (st.startLeft + deltaX) / b.parentWidth * 100
  let constrainedLeftPercent := max b.leftBoundPercent proposedLeftPercent
  let maxLeftPercent :=
    (endPoint - 1000 / 1000 / 30 * b.parentWidth) / b.parentWidth * 100
  (min maxLeftPercent constrainedLeftPercent) * b.parentWidth / 100

/-- Transcription of the resize `handleMouseMove` (lines 278-356): recompute
bounds (abort the move leaving the frame untouched when that fails), branch
on the direction to produce a provisional width (and, for the left
direction, a provisional timestamp), derive the duration, clamp it to
`[minDuration, maxDuration]` recomputing width/position on clamp, and mutate
the frame's fields.  `resolvedDuration` models `resolveDuration(media)`. -/
def resizeMouseMove (direction : ResizeDirection) (st : ResizeState)
    (resolvedDuration : Option ℚ) (g : TrackGeometry) (moveClientX : ℚ)
    (f : Frame) : Frame :=
  match calculateBounds g with
  | none => f
  | some currentBounds =>
      let deltaX := moveClientX - st.startX
      let minDuration : ℚ := 1000
      let maxDuration : ℚ := resolvedDuration.getD 5000
      let step : ℚ × ℚ :=
        match direction with
        | .left =>
            let endPoint := st.startLeft + st.startWidth
            let newLeft := leftResizeNewLeft st currentBounds deltaX
            let newWidth := endPoint - newLeft
            let newTimestamp := newLeft / currentBounds.parentWidth * 30 * 1000
            (newWidth, max 0 newTimestamp)
        | .right =>
            let newWidth := st.startWidth + deltaX
            let maxWidth :=
              currentBounds.rightBoundPixels + g.offsetLeft + g.offsetWidth
            (min newWidth (maxWidth - g.offsetLeft), f.timestamp)
      let newWidth := step.1
      let branchTimestamp := step.2
      let newDuration := newWidth / currentBounds.parentWidth * 30 * 1000
      if newDuration < minDuration then
        match direction with
        | .left =>
            let newWidth2 := minDuration / 1000 / 30 * currentBounds.parentWidth
            let endPoint := st.startLeft + st.startWidth
            { timestamp := (endPoint - newWidth2) / currentBounds.parentWidth * 30 * 1000,
              duration := minDuration }
        | .right => { timestamp := branchTimestamp, duration := minDuration }
      else if newDuration > maxDuration then
        match direction with
        | .left =>
            let newWidth2 := maxDuration / 1000 / 30 * currentBounds.parentWidth
            let endPoint := st.startLeft + st.startWidth
            { timestamp := (endPoint - newWidth2) / currentBounds.parentWidth * 30 * 1000,
              duration := maxDuration }
        | .right => { timestamp := branchTimestamp, duration := maxDuration }
      else
        { timestamp := branchTimestamp, duration := newDuration }

/-- Rounding applied at resize commit: `Math.round(v / 100) * 100`. -/
def roundToHundred (v : ℚ) : ℚ := ((round (v / 100) : ℤ) : ℚ) * 100

/-- Transcription of the resize `handleMouseUp` (lines 358-376): round both
fields to the nearest 100 ms, persist the rounded pair in one store update,
invalidate the project preview cache once. -/
def resizeMouseUp (f : Frame) : Frame × List Effect :=
  let d := roundToHundred f.duration
  let t := roundToHundred f.timestamp
  ({ timestamp := t, duration := d },
   [Effect.update (some t) (some d), Effect.invalidatePreview])

/-- Folds a list of resize pointer-moves, each with its own fresh DOM
geometry read, over the frame. -/
def runResizeMoves (direction : ResizeDirection) (st : ResizeState)
    (resolvedDuration : Option ℚ) (moves : List (TrackGeometry × ℚ))
    (f : Frame) : Frame :=
  moves.foldl (fun acc m => resizeMouseMove direction st resolvedDuration m.1 m.2 acc) f

/-- A whole resize session: entry, moves, commit.  When entry aborts,
nothing happens at all.  Resize moves perform no store writes; the only
effects are the commit's. -/
def runResizeSession (direction : ResizeDirection)
    (trackElem : Option TrackGeometry) (downX : ℚ)
    (resolvedDuration : Option ℚ) (moves : List (TrackGeometry × ℚ))
    (f : Frame) : Frame × List Effect :=
  match resizeMouseDown trackElem downX f with
  | none => (f, [])
  | some st => resizeMouseUp (runResizeMoves direction st resolvedDuration moves f)

/-! Helper lemmas shared by the claim theorems. -/

/-- Fields of a successful `calculateBounds` result: the percentage forms
are the pixel forms over `parentWidth`, which is the timeline's
`offsetWidth`. -/
theorem calculateBounds_percent {g : TrackGeometry} {b : Bounds}
    (hb : calculateBounds g = some b) :
    b.parentWidth = g.parentWidth ∧
    b.leftBoundPercent = b.leftBoundPixels / b.parentWidth * 100 ∧
    b.rightBoundPercent = b.rightBoundPixels / b.parentWidth * 100 := by
  unfold calculateBounds at hb
  cases htl : g.timeline with
  | none => rw [htl] at hb; cases hb
  | some tl =>
      rw [htl] at hb
      dsimp only at hb
      injection hb with h
      subst h
      exact ⟨rfl, rfl, rfl⟩

/-- The two-sided if-clamp of the drag handler agrees with `min`/`max` when
the bounds are ordered. -/
theorem ifClamp_eq_min_max (x lo hi : ℚ) (h : lo ≤ hi) :
    (if x < lo then lo else if x > hi then hi else x) = min hi (max lo x) := by
  split_ifs with h1 h2
  · rw [max_eq_left h1.le, min_eq_right h]
  · rw [max_eq_right (not_lt.mp h1), min_eq_left h2.le]
  · rw [max_eq_right (not_lt.mp h1), min_eq_right (not_lt.mp h2)]

/-- Flooring at zero before scaling by 1000 equals flooring after. -/
theorem ite_neg_zero_mul (t : ℚ) :
    (if t < 0 then 0 else t) * 1000 = max 0 (t * 1000) := by
  split_ifs with h
  · rw [zero_mul, max_eq_left (by linarith)]
  · rw [max_eq_right (by linarith)]

/-- A right-direction resize move never touches the frame's timestamp. -/
theorem resizeMouseMove_right_timestamp (st : ResizeState) (rd : Option ℚ)
    (g : TrackGeometry) (mx : ℚ) (f : Frame) :
    (resizeMouseMove .right st rd g mx f).timestamp = f.timestamp := by
  unfold resizeMouseMove
  cases calculateBounds g with
  | none => rfl
  | some b =>
      dsimp only
      split_ifs <;> rfl

/-- A list of right-direction resize moves never touches the timestamp. -/
theorem runResizeMoves_right_timestamp (st : ResizeState) (rd : Option ℚ)
    (moves : List (TrackGeometry × ℚ)) (f : Frame) :
    (runResizeMoves .right st rd moves f).timestamp = f.timestamp := by
  induction moves generalizing f with
  | nil => rfl
  | cons m ms ih =>
      show (runResizeMoves .right st rd ms (resizeMouseMove .right st rd m.1 m.2 f)).timestamp = _
      rw [ih, resizeMouseMove_right_timestamp]

/-- Rounding to the nearest hundred fixes exactly the multiples of 100. -/
theorem roundToHundred_eq_self_iff (t : ℚ) :
    roundToHundred t = t ↔ ∃ k : ℤ, t = k * 100 := by
  constructor
  · intro h
    exact ⟨round (t / 100), h.symm⟩
  · rintro ⟨k, rfl⟩
    unfold roundToHundred
    rw [mul_div_cancel_right₀ _ (by norm_num : (100 : ℚ) ≠ 0)]
    rw [round_intCast]

/-! Claim theorems. -/

/-- C1: the claim asserts `0 ≤ timestamp` and `timestamp + duration ≤ 30000`
after every drag/resize pointer-move, given both held at session start and
the geometry is consistent with the stored clips.  The code violates it: a
clip at timestamp 6000 ms / duration 3000 ms (offsetLeft 200 px, width
100 px on a 1000 px timeline, no siblings, media of resolved duration
30000 ms) resized at the right edge by +900 px ends at duration 30000 ms
with timestamp 6000 ms, so `timestamp + duration = 36000 > 30000`: the
right-branch width clamp bounds the width by the timeline width instead of
by the timeline width minus the clip's left offset. -/
theorem right_resize_violates_total_duration :
    ((0 : ℚ) ≤ 6000 ∧ (6000 : ℚ) + 3000 ≤ 30000) ∧
    resizeMouseMove .right ⟨0, 100, 200, 6000⟩ (some 30000)
        ⟨some ⟨0, 1000⟩, 1000, ⟨200, 100⟩, 200, 100, none, none⟩ 900
        ⟨6000, 3000⟩ = ⟨6000, 30000⟩ ∧
    ¬ ((6000 : ℚ) + 30000 ≤ 30000) := by
  refine ⟨by norm_num, ?_, by norm_num⟩
  simp only [resizeMouseMove, calculateBounds, leftResizeNewLeft, Rect.right]
  norm_num

/-- C3: the claim asserts the right-edge resize clamps the width so that
`left offset + width` never exceeds the next sibling's left edge.  The code
violates it: clip at offsetLeft 100 px, width 200 px on a 1000 px timeline,
next sibling at 400 px, pointer +250 px, media resolved duration 20000 ms:
the width is clamped to `rightBoundPixels + offsetWidth = 400` px (the next
sibling's left offset) rather than `400 - offsetLeft = 300` px, giving
duration 12000 ms, i.e. a rendered right edge of
`100 + 12000/30000*1000 = 500` px, 100 px past the sibling — contradicting
the code's own comment at line 321. -/
theorem right_resize_crosses_next_sibling :
    (resizeMouseMove .right ⟨0, 200, 100, 3000⟩ (some 20000)
        ⟨some ⟨0, 1000⟩, 1000, ⟨100, 200⟩, 100, 200, none, some ⟨400, 300⟩⟩ 250
        ⟨3000, 6000⟩).duration = 12000 ∧
    ¬ ((100 : ℚ) + 12000 / 1000 / 30 * 1000 ≤ 400 - 0) := by
  refine ⟨?_, by norm_num⟩
  simp only [resizeMouseMove, calculateBounds, leftResizeNewLeft, Rect.right]
  norm_num

/-- C5: at resize pointer-up, both fields are rounded to the nearest 100 ms
(`round(v/100)*100`), the rounded pair is persisted in exactly one store
update carrying both fields, and the preview cache is invalidated exactly
once. -/
theorem resize_commit_rounds_and_persists_once (direction : ResizeDirection)
    (trackElem : Option TrackGeometry) (downX : ℚ) (rd : Option ℚ)
    (moves : List (TrackGeometry × ℚ)) (f : Frame) (st : ResizeState)
    (h : resizeMouseDown trackElem downX f = some st) :
    runResizeSession direction trackElem downX rd moves f =
      (⟨roundToHundred (runResizeMoves direction st rd moves f).timestamp,
        roundToHundred (runResizeMoves direction st rd moves f).duration⟩,
       [Effect.update
          (some (roundToHundred (runResizeMoves direction st rd moves f).timestamp))
          (some (roundToHundred (runResizeMoves direction st rd moves f).duration)),
        Effect.invalidatePreview]) ∧
    (runResizeSession direction trackElem downX rd moves f).2.countP
        Effect.isUpdate = 1 ∧
    (runResizeSession direction trackElem downX rd moves f).2.countP
        Effect.isInvalidate = 1 := by
  unfold runResizeSession
  rw [h]
  unfold resizeMouseUp
  exact ⟨rfl, rfl, rfl⟩

/-- C5 witness: a concrete no-sibling resize session of one move. -/
theorem resize_commit_rounds_and_persists_once_witness :
    runResizeSession .right
        (some ⟨some ⟨0, 1000⟩, 1000, ⟨0, 100⟩, 0, 100, none, none⟩) 0 none
        [] ⟨150, 3049⟩ =
      (⟨roundToHundred (runResizeMoves .right ⟨0, 100, 0, 150⟩ none [] ⟨150, 3049⟩).timestamp,
        roundToHundred (runResizeMoves .right ⟨0, 100, 0, 150⟩ none [] ⟨150, 3049⟩).duration⟩,
       [Effect.update
          (some (roundToHundred (runResizeMoves .right ⟨0, 100, 0, 150⟩ none [] ⟨150, 3049⟩).timestamp))
          (some (roundToHundred (runResizeMoves .right ⟨0, 100, 0, 150⟩ none [] ⟨150, 3049⟩).duration)),
        Effect.invalidatePreview]) :=
  (resize_commit_rounds_and_persists_once .right
    (some ⟨some ⟨0, 1000⟩, 1000, ⟨0, 100⟩, 0, 100, none, none⟩) 0 none []
    ⟨150, 3049⟩ ⟨0, 100, 0, 150⟩ rfl).1

/-- C8: when the timeline container cannot be located (the track element ref
is empty or `calculateBounds` yields no result), drag entry, resize entry,
whole sessions, and individual resize moves all abort with no frame
mutation, no store write and no cache invalidation. -/
theorem bounds_unavailable_aborts :
    (∀ x, dragMouseDown none x = none) ∧
    (∀ g x, calculateBounds g = none → dragMouseDown (some g) x = none) ∧
    (∀ x moves f, runDragSession none x moves f = (f, [])) ∧
    (∀ g x moves f, calculateBounds g = none →
      runDragSession (some g) x moves f = (f, [])) ∧
    (∀ x f, resizeMouseDown none x f = none) ∧
    (∀ g x f, calculateBounds g = none → resizeMouseDown (some g) x f = none) ∧
    (∀ direction x rd moves f,
      runResizeSession direction none x rd moves f = (f, [])) ∧
    (∀ direction g x rd moves f, calculateBounds g = none →
      runResizeSession direction (some g) x rd moves f = (f, [])) ∧
    (∀ direction st rd g mx f, calculateBounds g = none →
      resizeMouseMove direction st rd g mx f = f) := by
  refine ⟨fun x => rfl, ?_, fun x moves f => rfl, ?_, fun x f => rfl, ?_,
    fun direction x rd moves f => rfl, ?_, ?_⟩
  · intro g x h
    simp [dragMouseDown, h]
  · intro g x moves f h
    simp [runDragSession, dragMouseDown, h]
  · intro g x f h
    simp [resizeMouseDown, h]
  · intro direction g x rd moves f h
    simp [runResizeSession, resizeMouseDown, h]
  · intro direction st rd g mx f h
    simp [resizeMouseMove, h]

/-- C8 witness: a geometry whose timeline container is missing aborts a
concrete drag entry, resize session and resize move. -/
theorem bounds_unavailable_aborts_witness :
    dragMouseDown (some ⟨none, 1000, ⟨0, 100⟩, 0, 100, none, none⟩) 7 = none ∧
    runResizeSession .left (some ⟨none, 1000, ⟨0, 100⟩, 0, 100, none, none⟩)
      7 none [] ⟨0, 5000⟩ = (⟨0, 5000⟩, []) ∧
    resizeMouseMove .left ⟨7, 100, 0, 0⟩ none
      ⟨none, 1000, ⟨0, 100⟩, 0, 100, none, none⟩ 9 ⟨0, 5000⟩ = ⟨0, 5000⟩ :=
  ⟨bounds_unavailable_aborts.2.1 _ 7 rfl,
   bounds_unavailable_aborts.2.2.2.2.2.2.2.1 .left _ 7 none [] ⟨0, 5000⟩ rfl,
   bounds_unavailable_aborts.2.2.2.2.2.2.2.2 .left ⟨7, 100, 0, 0⟩ none _ 9
     ⟨0, 5000⟩ rfl⟩

/-- C9: the claim asserts the pixel-to-ms conversion fails when the rendered
width is zero and the interaction aborts with no mutation.  The code has no
such check: with the timeline container present but `parentWidth = 0`, the
drag session starts and a pointer-move still mutates the frame and writes to
the store (the division by zero is unguarded). -/
theorem zero_width_drag_not_aborted :
    dragMouseDown (some ⟨some ⟨0, 0⟩, 0, ⟨0, 0⟩, 0, 0, none, none⟩) 0 =
      some ⟨⟨0, ⟨0, 0⟩, ⟨0, 0⟩, 0, 0, 0, 0⟩, 0, 0⟩ ∧
    (dragMouseMove ⟨⟨0, ⟨0, 0⟩, ⟨0, 0⟩, 0, 0, 0, 0⟩, 0, 0⟩ 5 ⟨0, 3000⟩).2 ≠ [] := by
  constructor
  · simp only [dragMouseDown, calculateBounds]
    norm_num
  · simp [dragMouseMove]

/-- C9 amended: no rendered-width validation exists.  A drag session aborts
exactly when the timeline container is missing — the decision is independent
of `parentWidth` — and every drag pointer-move unconditionally performs a
store write. -/
theorem drag_aborts_only_on_missing_timeline :
    (∀ g x, (dragMouseDown (some g) x).isSome = g.timeline.isSome) ∧
    (∀ st mx f, (dragMouseMove st mx f).2 ≠ []) := by
  constructor
  · intro g x
    cases htl : g.timeline <;> simp [dragMouseDown, calculateBounds, htl]
  · intro st mx f
    simp [dragMouseMove]

/-- C10: a right-edge resize session commits `round(t0/100)*100` as the
timestamp, where `t0` is the clip's timestamp at session start (no
right-direction move writes it), so the commit changes the stored timestamp
exactly when `t0` is not a multiple of 100 ms. -/
theorem right_resize_commit_timestamp (trackElem : Option TrackGeometry)
    (downX : ℚ) (rd : Option ℚ) (moves : List (TrackGeometry × ℚ)) (f : Frame)
    (st : ResizeState) (h : resizeMouseDown trackElem downX f = some st) :
    (runResizeSession .right trackElem downX rd moves f).1.timestamp =
      roundToHundred f.timestamp ∧
    ((runResizeSession .right trackElem downX rd moves f).1.timestamp ≠
        f.timestamp ↔ ¬ ∃ k : ℤ, f.timestamp = k * 100) := by
  unfold runResizeSession
  rw [h]
  have hts : (resizeMouseUp (runResizeMoves .right st rd moves f)).1.timestamp =
      roundToHundred f.timestamp := by
    unfold resizeMouseUp
    dsimp only
    rw [runResizeMoves_right_timestamp]
  refine ⟨hts, ?_⟩
  rw [hts]
  rw [not_iff_not.symm, not_not, not_not]
  exact roundToHundred_eq_self_iff f.timestamp

/-- C10 witness: a session starting at timestamp 150 ms (not a multiple of
100) commits 200 ms. -/
theorem right_resize_commit_timestamp_witness :
    (runResizeSession .right
        (some ⟨some ⟨0, 1000⟩, 1000, ⟨5, 100⟩, 5, 100, none, none⟩) 0 none []
        ⟨150, 3000⟩).1.timestamp = roundToHundred 150 :=
  (right_resize_commit_timestamp
    (some ⟨some ⟨0, 1000⟩, 1000, ⟨5, 100⟩, 5, 100, none, none⟩) 0 none []
    ⟨150, 3000⟩ ⟨0, 100, 5, 150⟩ rfl).1

/-- C4: after every effective resize pointer-move (either direction), the
clip's duration lies in `[1000, resolvedDuration.getD 5000]`, provided that
maximum is at least the 1000 ms minimum. -/
theorem resize_duration_clamped (direction : ResizeDirection) (st : ResizeState)
    (rd : Option ℚ) (g : TrackGeometry) (mx : ℚ) (f : Frame) (b : Bounds)
    (hb : calculateBounds g = some b)
    (hmax : (1000 : ℚ) ≤ rd.getD 5000) :
    1000 ≤ (resizeMouseMove direction st rd g mx f).duration ∧
    (resizeMouseMove direction st rd g mx f).duration ≤ rd.getD 5000 := by
  unfold resizeMouseMove
  rw [hb]
  cases direction <;> dsimp only <;> split_ifs with h1 h2 <;> dsimp only <;>
    exact ⟨by linarith, by linarith⟩

/-- C4 witness: a right-edge move on a full-width clip with the default
5000 ms maximum. -/
theorem resize_duration_clamped_witness :
    1000 ≤ (resizeMouseMove .right ⟨0, 100, 0, 0⟩ none
        ⟨some ⟨0, 1000⟩, 1000, ⟨0, 1000⟩, 0, 1000, none, none⟩ 50 ⟨0, 3000⟩).duration ∧
    (resizeMouseMove .right ⟨0, 100, 0, 0⟩ none
        ⟨some ⟨0, 1000⟩, 1000, ⟨0, 1000⟩, 0, 1000, none, none⟩ 50 ⟨0, 3000⟩).duration ≤
      (none : Option ℚ).getD 5000 :=
  resize_duration_clamped .right ⟨0, 100, 0, 0⟩ none
    ⟨some ⟨0, 1000⟩, 1000, ⟨0, 1000⟩, 0, 1000, none, none⟩ 50 ⟨0, 3000⟩
    ⟨1000, ⟨0, 1000⟩, ⟨0, 1000⟩, 0, 0, 0, 0⟩ (by norm_num [calculateBounds])
    (by norm_num)

/-- C6: a drag pointer-move sets the timestamp to the clamped new left
offset — `clamp(startLeft + (pointerX - startX), leftBound, rightBound)` —
converted by `newLeft / parentWidth * 30 * 1000` and floored at 0; it leaves
the duration untouched, and its single store write carries only the
timestamp field. -/
theorem drag_move_clamp_and_duration (st : DragState) (mx : ℚ) (f : Frame)
    (h : st.bounds.leftBoundPixels ≤ st.bounds.rightBoundPixels) :
    (dragMouseMove st mx f).1.timestamp =
      max 0 (min st.bounds.rightBoundPixels
          (max st.bounds.leftBoundPixels (st.startLeft + (mx - st.startX))) /
        st.bounds.parentWidth * 30 * 1000) ∧
    (dragMouseMove st mx f).1.duration = f.duration ∧
    (dragMouseMove st mx f).2 =
      [Effect.update (some ((dragMouseMove st mx f).1.timestamp)) none] := by
  refine ⟨?_, rfl, rfl⟩
  unfold dragMouseMove
  dsimp only
  rw [ifClamp_eq_min_max _ _ _ h]
  exact ite_neg_zero_mul _

/-- C6 witness: the spec scenario — 1000 px timeline, clip at 0 with width
100 px, pointer +300 px, no neighbors: timestamp 9000 ms, duration kept. -/
theorem drag_move_clamp_and_duration_witness :
    (dragMouseMove ⟨⟨1000, ⟨0, 1000⟩, ⟨0, 100⟩, 0, 900, 0, 90⟩, 0, 0⟩ 300
        ⟨0, 5000⟩).1.timestamp =
      max 0 (min 900 (max 0 (0 + (300 - 0))) / 1000 * 30 * 1000) ∧
    (dragMouseMove ⟨⟨1000, ⟨0, 1000⟩, ⟨0, 100⟩, 0, 900, 0, 90⟩, 0, 0⟩ 300
        ⟨0, 5000⟩).1.duration = 5000 ∧
    (dragMouseMove ⟨⟨1000, ⟨0, 1000⟩, ⟨0, 100⟩, 0, 900, 0, 90⟩, 0, 0⟩ 300
        ⟨0, 5000⟩).2 =
      [Effect.update
        (some ((dragMouseMove ⟨⟨1000, ⟨0, 1000⟩, ⟨0, 100⟩, 0, 900, 0, 90⟩, 0, 0⟩ 300
          ⟨0, 5000⟩).1.timestamp)) none] :=
  drag_move_clamp_and_duration ⟨⟨1000, ⟨0, 1000⟩, ⟨0, 100⟩, 0, 900, 0, 90⟩, 0, 0⟩ 300
    ⟨0, 5000⟩ (by norm_num)

/-- C7: when the timeline container is found, `calculateBounds` returns the
previous sibling's right edge relative to the timeline's left edge (or 0),
the next sibling's left edge relative to the timeline minus the clip's width
(or the timeline's width minus the clip's width), and the percentage forms
are those pixel values over the timeline's `offsetWidth` times 100. -/
theorem calculateBounds_spec (g : TrackGeometry) (tl : Rect)
    (h : g.timeline = some tl) :
    ∃ b, calculateBounds g = some b ∧
      b.parentWidth = g.parentWidth ∧
      b.leftBoundPixels = (match g.prev with
        | some p => p.right - tl.left
        | none => 0) ∧
      b.rightBoundPixels = (match g.next with
        | some n => n.left - tl.left - g.trackRect.width
        | none => tl.width - g.trackRect.width) ∧
      b.leftBoundPercent = b.leftBoundPixels / g.parentWidth * 100 ∧
      b.rightBoundPercent = b.rightBoundPixels / g.parentWidth * 100 := by
  unfold calculateBounds
  rw [h]
  exact ⟨_, rfl, rfl, rfl, rfl, rfl, rfl⟩

/-- C7 witness: a clip with both siblings present. -/
theorem calculateBounds_spec_witness :
    ∃ b, calculateBounds ⟨some ⟨0, 1000⟩, 1000, ⟨300, 100⟩, 300, 100,
        some ⟨100, 150⟩, some ⟨600, 80⟩⟩ = some b ∧
      b.parentWidth = 1000 ∧
      b.leftBoundPixels = Rect.right ⟨100, 150⟩ - 0 ∧
      b.rightBoundPixels = 600 - 0 - 100 ∧
      b.leftBoundPercent = b.leftBoundPixels / 1000 * 100 ∧
      b.rightBoundPercent = b.rightBoundPixels / 1000 * 100 :=
  calculateBounds_spec ⟨some ⟨0, 1000⟩, 1000, ⟨300, 100⟩, 300, 100,
    some ⟨100, 150⟩, some ⟨600, 80⟩⟩ ⟨0, 1000⟩ rfl

/-- The constrained new left offset of a left-direction resize is
nonnegative whenever the left bound is, the rendered width is positive and
the anchored right edge sits at or past the width of one minimum duration. -/
theorem leftResizeNewLeft_nonneg (st : ResizeState) (b : Bounds) (dX : ℚ)
    (hpw : 0 < b.parentWidth) (hlbp : 0 ≤ b.leftBoundPercent)
    (hend : b.parentWidth / 30 ≤ st.startLeft + st.startWidth) :
    0 ≤ leftResizeNewLeft st b dX := by
  unfold leftResizeNewLeft
  dsimp only
  have hA : 0 ≤ (st.startLeft + st.startWidth - 1000 / 1000 / 30 * b.parentWidth) /
      b.parentWidth * 100 := by
    apply mul_nonneg _ (by norm_num)
    apply div_nonneg _ hpw.le
    have h30 : (1000 : ℚ) / 1000 / 30 * b.parentWidth = b.parentWidth / 30 := by ring
    rw [h30]
    linarith
  have hB : 0 ≤ max b.leftBoundPercent ((st.startLeft + dX) / b.parentWidth * 100) :=
    le_trans hlbp (le_max_left _ _)
  apply div_nonneg _ (by norm_num)
  exact mul_nonneg (le_min hA hB) hpw.le

/-- C2: during a left-edge resize, every effective pointer-move keeps the
right edge fixed in milliseconds: `timestamp + duration` afterwards equals
`startTimestamp + startDuration`, exactly (in rational arithmetic), given
geometry consistent with the stored clip (`startLeft`/`startWidth` convert
to `startTimestamp`/`d0`), positive rendered width, a nonnegative left
bound, nonnegative start timestamp and start duration at least 1000 ms. -/
theorem left_resize_anchor_preserved (st : ResizeState) (rd : Option ℚ)
    (g : TrackGeometry) (mx : ℚ) (f : Frame) (b : Bounds) (d0 : ℚ)
    (hb : calculateBounds g = some b)
    (hpw : 0 < b.parentWidth)
    (hlb : 0 ≤ b.leftBoundPixels)
    (hstart : st.startLeft / b.parentWidth * 30 * 1000 = st.startTimestamp)
    (hwidth : st.startWidth / b.parentWidth * 30 * 1000 = d0)
    (ht0 : 0 ≤ st.startTimestamp)
    (hd0 : 1000 ≤ d0) :
    (resizeMouseMove .left st rd g mx f).timestamp +
      (resizeMouseMove .left st rd g mx f).duration =
      st.startTimestamp + d0 := by
  obtain ⟨hbp, hlbp, -⟩ := calculateBounds_percent hb
  have hpw' : b.parentWidth ≠ 0 := ne_of_gt hpw
  have e1 : st.startLeft * 30 * 1000 = st.startTimestamp * b.parentWidth := by
    field_simp at hstart
    linarith
  have e2 : st.startWidth * 30 * 1000 = d0 * b.parentWidth := by
    field_simp at hwidth
    linarith
  have hend : b.parentWidth / 30 ≤ st.startLeft + st.startWidth := by
    have h1000 : (1000 : ℚ) ≤ st.startTimestamp + d0 := by linarith
    have hm : 1000 * b.parentWidth ≤ (st.startTimestamp + d0) * b.parentWidth :=
      mul_le_mul_of_nonneg_right h1000 hpw.le
    nlinarith [e1, e2, hm]
  have hlbp0 : 0 ≤ b.leftBoundPercent := by
    rw [hlbp]
    exact mul_nonneg (div_nonneg hlb hpw.le) (by norm_num)
  have hnn : 0 ≤ leftResizeNewLeft st b (mx - st.startX) :=
    leftResizeNewLeft_nonneg st b _ hpw hlbp0 hend
  unfold resizeMouseMove
  rw [hb]
  dsimp only
  split_ifs with hmin hmax <;> dsimp only
  · rw [← hstart, ← hwidth]
    field_simp
    ring
  · rw [← hstart, ← hwidth]
    field_simp
    ring
  · rw [max_eq_right (mul_nonneg (mul_nonneg (div_nonneg hnn hpw.le) (by norm_num))
      (by norm_num))]
    rw [← hstart, ← hwidth]
    field_simp
    ring

/-- C2 witness: clip at 15000 ms / 6000 ms on a 1000 px timeline, left edge
dragged -100 px (the 5000 ms default maximum clamp triggers): the right edge
stays at 21000 ms. -/
theorem left_resize_anchor_preserved_witness :
    (resizeMouseMove .left ⟨0, 200, 500, 15000⟩ none
        ⟨some ⟨0, 1000⟩, 1000, ⟨500, 200⟩, 500, 200, none, none⟩ (-100)
        ⟨15000, 6000⟩).timestamp +
      (resizeMouseMove .left ⟨0, 200, 500, 15000⟩ none
        ⟨some ⟨0, 1000⟩, 1000, ⟨500, 200⟩, 500, 200, none, none⟩ (-100)
        ⟨15000, 6000⟩).duration = 15000 + 6000 :=
  left_resize_anchor_preserved ⟨0, 200, 500, 15000⟩ none
    ⟨some ⟨0, 1000⟩, 1000, ⟨500, 200⟩, 500, 200, none, none⟩ (-100) ⟨15000, 6000⟩
    ⟨1000, ⟨0, 1000⟩, ⟨500, 200⟩, 0, 800, 0, 80⟩ 6000 (by norm_num [calculateBounds])
    (by norm_num) (by norm_num) (by norm_num) (by norm_num) (by norm_num) (by norm_num)
